import Mathlib

/-!
Verification development for the real-estate listing extraction and
deduplication engine (`services/parser.py`, `database/post_service.py`,
`database/repository.py`).

The Python source is shallowly embedded: each extractor becomes an
executable Lean function over `String`, Python `re` patterns are
transcribed into a small regular-expression datatype evaluated by a
backtracking matcher with Python `re.search` semantics (leftmost match,
greedy/lazy quantifiers, ordered alternation, capture groups,
`lastindex`), and the duplicate-resolution/ingestion logic becomes an
explicit state-passing function over an in-memory model of the posts and
duplicate-link tables.

Scope notes on the character model: Python 3 strings are Unicode; the
embedded classifier tables (`\d`, `\s`, `\w`, `lower`, `title`) here
cover ASCII plus the Cyrillic block (and common whitespace code points),
which are the only scripts appearing in the source patterns and data
tables.  Digits are modelled as ASCII `0-9`.
-/

namespace RealEstate

/-! ### Character classifiers (Python `str` semantics restricted to the
scripts used by the source: ASCII + Cyrillic) -/

def isDigitCh (c : Char) : Bool := 48 ≤ c.toNat && c.toNat ≤ 57

/-- Python `\s` / `str.isspace` members occurring in practice:
space, tab, newline, carriage return, vertical tab, form feed,
non-breaking space. -/
def isSpaceCh (c : Char) : Bool :=
  c = ' ' || c = '\t' || c = '\n' || c = '\r' ||
  c.toNat = 11 || c.toNat = 12 || c.toNat = 0xa0

def isAsciiUpperCh (c : Char) : Bool := 65 ≤ c.toNat && c.toNat ≤ 90
def isAsciiLowerCh (c : Char) : Bool := 97 ≤ c.toNat && c.toNat ≤ 122
/-- Cyrillic uppercase А..Я plus Ё. -/
def isCyrUpperCh (c : Char) : Bool :=
  (0x410 ≤ c.toNat && c.toNat ≤ 0x42f) || c.toNat = 0x401
/-- Cyrillic lowercase а..я plus ё. -/
def isCyrLowerCh (c : Char) : Bool :=
  (0x430 ≤ c.toNat && c.toNat ≤ 0x44f) || c.toNat = 0x451

def isAlphaCh (c : Char) : Bool :=
  isAsciiUpperCh c || isAsciiLowerCh c || isCyrUpperCh c || isCyrLowerCh c

/-- Python `\w`: letters, digits, underscore. -/
def isWordCh (c : Char) : Bool := isAlphaCh c || isDigitCh c || c = '_'

def lowerCh (c : Char) : Char :=
  if isAsciiUpperCh c then Char.ofNat (c.toNat + 32)
  else if 0x410 ≤ c.toNat && c.toNat ≤ 0x42f then Char.ofNat (c.toNat + 0x20)
  else if c.toNat = 0x401 then Char.ofNat 0x451
  else c

def upperCh (c : Char) : Char :=
  if isAsciiLowerCh c then Char.ofNat (c.toNat - 32)
  else if 0x430 ≤ c.toNat && c.toNat ≤ 0x44f then Char.ofNat (c.toNat - 0x20)
  else if c.toNat = 0x451 then Char.ofNat 0x401
  else c

/-- The apostrophe character, built numerically so the source file
contains no bare quote character outside literals. -/
def apos : Char := Char.ofNat 39

/-! ### Python string helpers -/

/-- Python `str.lower()`. -/
def pyLower (s : String) : String := String.mk (s.data.map lowerCh)

def dropWhileSpace (l : List Char) : List Char := l.dropWhile isSpaceCh

/-- Python `str.strip()`. -/
def pyStrip (s : String) : String :=
  String.mk ((dropWhileSpace ((dropWhileSpace s.data.reverse)).reverse))

/-- Python `str.split()` with no argument: split on whitespace runs,
dropping empty pieces. -/
def pySplitWs (s : String) : List String :=
  ((s.data.splitOnP isSpaceCh).map String.mk).filter (fun w => w ≠ "")

/-- Python `" ".join(l)`. -/
def joinSpace (l : List String) : String := String.intercalate " " l

/-- Python substring containment `a in b`. -/
def substr (needle hay : String) : Bool :=
  let n := needle.data
  let rec go : List Char → Bool
    | [] => n.isEmpty
    | c :: rest => (n.isPrefixOf (c :: rest)) || go rest
  go hay.data

/-- Python `str.title()` restricted to the embedded alphabet: the first
cased character of every alphabetic run is uppercased, the rest
lowercased. -/
def pyTitle (s : String) : String :=
  let rec go (prevAlpha : Bool) : List Char → List Char
    | [] => []
    | c :: rest =>
      let c' := if isAlphaCh c then (if prevAlpha then lowerCh c else upperCh c) else c
      c' :: go (isAlphaCh c) rest
  String.mk (go false s.data)

/-- Python `str.replace(old, new)`: all non-overlapping occurrences,
left to right. -/
def pyReplace (s old new : String) : String :=
  if old = "" then s else
  let o := old.data
  let rec go (fuel : Nat) (l : List Char) : List Char :=
    match fuel with
    | 0 => l
    | fuel + 1 =>
      match l with
      | [] => []
      | c :: rest =>
        if o.isPrefixOf l then new.data ++ go fuel (l.drop o.length)
        else c :: go fuel rest
  String.mk (go s.length s.data)

/-- Python truthiness of an optional string (`None` and `""` are falsy). -/
def truthyStr : Option String → Bool
  | none => false
  | some s => s ≠ ""

/-- Python truthiness of an optional integer (`None` and `0` are falsy). -/
def truthyNat : Option Nat → Bool
  | none => false
  | some n => n ≠ 0

/-! ### Regular-expression engine

A small backtracking matcher with the semantics Python `re` gives to the
constructs actually used in `parser.py`: ordered alternation, greedy and
lazy quantifiers over single-character items, optional groups, capture
groups, `$` (end of string or before a final newline), `\b`, and a
single-character negative lookahead `(?!x)`. -/

/-- One item of a character class. -/
inductive CItem where
  | ch (c : Char)
  | rng (lo hi : Char)
  | digitI
  | spaceI
  | wordI
  deriving Repr, DecidableEq

/-- A single-character matcher (literal, predefined class, or bracket
class). -/
inductive CPred where
  | lit (c : Char)
  | digit
  | nonDigit
  | space
  | nonSpace
  | word
  | dot
  | cls (neg : Bool) (items : List CItem)
  deriving Repr, DecidableEq

def citemMatches (it : CItem) (c : Char) : Bool :=
  match it with
  | .ch x => c = x
  | .rng lo hi => lo.toNat ≤ c.toNat && c.toNat ≤ hi.toNat
  | .digitI => isDigitCh c
  | .spaceI => isSpaceCh c
  | .wordI => isWordCh c

def cpredRaw (p : CPred) (c : Char) : Bool :=
  match p with
  | .lit x => c = x
  | .digit => isDigitCh c
  | .nonDigit => !isDigitCh c
  | .space => isSpaceCh c
  | .nonSpace => !isSpaceCh c
  | .word => isWordCh c
  | .dot => c ≠ '\n'
  | .cls neg items =>
    let hit := items.any (fun it => citemMatches it c)
    if neg then !hit else hit

/-- Character match honouring the `re.I` flag (`ci`): a character also
matches if its lower- or uppercase counterpart does. -/
def cpredMatches (ci : Bool) (p : CPred) (c : Char) : Bool :=
  cpredRaw p c || (ci && (cpredRaw p (lowerCh c) || cpredRaw p (upperCh c)))

inductive Re where
  | eps
  | one (p : CPred)
  | cat (a b : Re)
  | alt (a b : Re)
  | rep (p : CPred) (lo : Nat) (hi : Option Nat) (greedy : Bool)
  | opt (r : Re) (greedy : Bool)
  | grp (n : Nat) (r : Re)
  | nla (p : CPred)
  | eos
  | bnd
  deriving Repr

/-- Captures: `(group, start, length)` in absolute positions. -/
abbrev Caps := List (Nat × Nat × Nat)

def setCap (caps : Caps) (n s l : Nat) : Caps := (n, s, l) :: caps

/-- All states reachable by consuming `0, 1, 2, ...` characters matching
`p` (bounded above by `hi`), shortest first.  A state is
`(position, previous char, remaining input)`. -/
def repStates (ci : Bool) (p : CPred) :
    Option Nat → Nat → Option Char → List Char → List (Nat × Option Char × List Char)
  | hi, pos, prev, s =>
    (pos, prev, s) ::
      (match s, hi with
       | _, some 0 => []
       | [], _ => []
       | c :: rest, _ =>
         if cpredMatches ci p c then
           repStates ci p (hi.map (· - 1)) (pos + 1) (some c) rest
         else [])

def firstSome {α β : Type} (f : α → Option β) : List α → Option β
  | [] => none
  | x :: xs => (f x) <|> firstSome f xs

/-- Backtracking matcher in continuation-passing style.  The
continuation receives the position, the previous character, the rest of
the input, and the captures so far; the overall result is the final
position plus captures of the first (leftmost-biased) full match. -/
def mtch (ci : Bool) :
    Re → Nat → Option Char → List Char → Caps →
    (Nat → Option Char → List Char → Caps → Option (Nat × Caps)) →
    Option (Nat × Caps)
  | .eps, pos, prev, s, caps, k => k pos prev s caps
  | .one p, pos, _, s, caps, k =>
    match s with
    | [] => none
    | c :: rest => if cpredMatches ci p c then k (pos + 1) (some c) rest caps else none
  | .cat a b, pos, prev, s, caps, k =>
    mtch ci a pos prev s caps (fun pos' prev' s' caps' => mtch ci b pos' prev' s' caps' k)
  | .alt a b, pos, prev, s, caps, k =>
    (mtch ci a pos prev s caps k) <|> (mtch ci b pos prev s caps k)
  | .rep p lo hi greedy, pos, prev, s, caps, k =>
    let sts := repStates ci p hi pos prev s
    let sts := if greedy then sts.reverse else sts
    let sts := sts.filter (fun st => lo ≤ st.1 - pos)
    firstSome (fun st => k st.1 st.2.1 st.2.2 caps) sts
  | .opt r greedy, pos, prev, s, caps, k =>
    if greedy then (mtch ci r pos prev s caps k) <|> (k pos prev s caps)
    else (k pos prev s caps) <|> (mtch ci r pos prev s caps k)
  | .grp n r, pos, prev, s, caps, k =>
    mtch ci r pos prev s caps
      (fun pos' prev' s' caps' => k pos' prev' s' (setCap caps' n pos (pos' - pos)))
  | .nla p, pos, prev, s, caps, k =>
    match s with
    | [] => k pos prev s caps
    | c :: _ => if cpredMatches ci p c then none else k pos prev s caps
  | .eos, pos, prev, s, caps, k =>
    match s with
    | [] => k pos prev s caps
    | [c] => if c = '\n' then k pos prev s caps else none
    | _ => none
  | .bnd, pos, prev, s, caps, k =>
    let before := match prev with | some c => isWordCh c | none => false
    let after := match s with | c :: _ => isWordCh c | [] => false
    if before ≠ after then k pos prev s caps else none

/-- A successful match: start/stop positions (stop exclusive) and
captures. -/
structure MRes where
  mstart : Nat
  mstop : Nat
  caps : Caps
  deriving Repr, DecidableEq

def tryAt (ci : Bool) (re : Re) (pos : Nat) (prev : Option Char) (s : List Char) :
    Option MRes :=
  match mtch ci re pos prev s [] (fun pos' _ _ caps => some (pos', caps)) with
  | some (stop, caps) => some ⟨pos, stop, caps⟩
  | none => none

def searchGo (ci : Bool) (re : Re) : Nat → Option Char → List Char → Option MRes
  | pos, prev, s =>
    match tryAt ci re pos prev s with
    | some m => some m
    | none =>
      match s with
      | [] => none
      | c :: rest => searchGo ci re (pos + 1) (some c) rest

/-- Python `pattern.search(t)`. -/
def rsearch (ci : Bool) (re : Re) (t : String) : Option MRes :=
  searchGo ci re 0 none t.data

/-- Python `pattern.match(t)`: anchored at position 0. -/
def rmatchAt0 (ci : Bool) (re : Re) (t : String) : Option MRes :=
  tryAt ci re 0 none t.data

def sliceStr (t : String) (s l : Nat) : String :=
  String.mk ((t.data.drop s).take l)

/-- `match.group(n)` for `n ≥ 1`: `none` when the group did not
participate in the match. -/
def groupOf (t : String) (m : MRes) (n : Nat) : Option String :=
  match m.caps.find? (fun x => x.1 = n) with
  | some x => some (sliceStr t x.2.1 x.2.2)
  | none => none

/-- `match.group(0)`. -/
def group0 (t : String) (m : MRes) : String := sliceStr t m.mstart (m.mstop - m.mstart)

/-- `match.lastindex`: highest participating group index, `None` when no
group participated. -/
def lastIdx (m : MRes) : Option Nat :=
  m.caps.foldl (fun acc x => match acc with
    | none => some x.1
    | some v => some (max v x.1)) none

/-- Python `pattern.finditer(t)` (all patterns iterated this way in the
source have nonzero-width matches; an empty match advances by one as a
safeguard). -/
def iterGo (ci : Bool) (re : Re) (t : List Char) :
    Nat → Nat → Option Char → List Char → List MRes
  | 0, _, _, _ => []
  | fuel + 1, pos, prev, s =>
    match searchGo ci re pos prev s with
    | none => []
    | some m =>
      let adv := m.mstop - pos
      if adv = 0 then
        m :: (match s with
          | [] => []
          | c :: rest => iterGo ci re t fuel (pos + 1) (some c) rest)
      else
        m :: iterGo ci re t fuel m.mstop ((t.drop (m.mstop - 1)).head?) (t.drop m.mstop)

def rfinditer (ci : Bool) (re : Re) (t : String) : List MRes :=
  iterGo ci re t.data (t.length + 1) 0 none t.data

/-- Python `re.sub(pattern, repl, t)` for a plain replacement string. -/
def rsub (ci : Bool) (re : Re) (repl : String) (t : String) : String :=
  let ms := rfinditer ci re t
  let (out, pos) := ms.foldl
    (fun (acc : List Char × Nat) m =>
      (acc.1 ++ ((t.data.drop acc.2).take (m.mstart - acc.2)) ++ repl.data, m.mstop))
    ([], 0)
  String.mk (out ++ t.data.drop pos)

/-! ### Regex construction helpers -/

def rstr (s : String) : Re := (s.data.map (fun c => Re.one (.lit c))).foldr Re.cat Re.eps

def rseq (l : List Re) : Re := l.foldr Re.cat Re.eps

def ralts : List Re → Re
  | [] => Re.eps
  | [x] => x
  | x :: xs => Re.alt x (ralts xs)

/-- Bracket class from the literal characters of a string. -/
def rcls (s : String) : CPred := .cls false (s.data.map .ch)

def rclsI (items : List CItem) : CPred := .cls false items

def ws0 : Re := .rep .space 0 none true
def ws1 : Re := .rep .space 1 none true
/-- `(\d+)` as capture group `n`. -/
def dgrp (n : Nat) : Re := .grp n (.rep .digit 1 none true)
def ropt (r : Re) : Re := .opt r true
def sApos : String := String.singleton apos

/-! ### Transcribed patterns from `services/parser.py`

Each definition mirrors one compiled pattern; the original pattern text
is quoted in the doc comment.  Patterns compiled with `re.I` are run
with the matcher's `ci` flag set at the call sites, mirroring each
Python call. -/

/-- `[⚫🟠🔴\s]*(\d+)\s*/\s*(\d+)\s*/\s*(\d+)[⚫🟠🔴\s]*` (`TRIPLE_FORMAT`). -/
def TRIPLE_FORMAT : Re :=
  let cl : CPred := .cls false [.ch '⚫', .ch '🟠', .ch '🔴', .spaceI]
  rseq [.rep cl 0 none true, dgrp 1, ws0, rstr "/", ws0, dgrp 2, ws0, rstr "/",
        ws0, dgrp 3, .rep cl 0 none true]

/-- `[:\-–]` (label separator class used across the labelled patterns). -/
def sep : CPred := rcls ":-–"

/-- `ROOMS_PATTERNS` (all `re.I`). -/
def ROOMS_PATTERNS : List Re :=
  [ -- (?:🏡\s*)?комнат[аы]?\s*[:\-–]\s*(\d+)
    rseq [ropt (rseq [rstr "🏡", ws0]), rstr "комнат", ropt (.one (rcls "аы")),
          ws0, .one sep, ws0, dgrp 1],
    -- кол[\.\-]?\s*(?:во\s+)?комнат\s*[:\-–]\s*(\d+)
    rseq [rstr "кол", ropt (.one (rcls ".-")), ws0, ropt (rseq [rstr "во", ws1]),
          rstr "комнат", ws0, .one sep, ws0, dgrp 1],
    -- (\d+)\s*[–\-]?\s*комнат(?:ная|ка)
    rseq [dgrp 1, ws0, ropt (.one (rcls "–-")), ws0, rstr "комнат",
          ralts [rstr "ная", rstr "ка"]],
    -- xonalar?\s*(?:soni)?\s*[:\-–]?\s*(\d+)
    rseq [rstr "xonala", ropt (rstr "r"), ws0, ropt (rstr "soni"), ws0,
          ropt (.one sep), ws0, dgrp 1],
    -- (\d+)\s*xona
    rseq [dgrp 1, ws0, rstr "xona"],
    -- [🔹🔸💮]\s*комнат[аы]?\s*[:\-–]?\s*(\d+)
    rseq [.one (rcls "🔹🔸💮"), ws0, rstr "комнат", ropt (.one (rcls "аы")),
          ws0, ropt (.one sep), ws0, dgrp 1] ]

/-- `FLOOR_PATTERNS` (all `re.I`). -/
def FLOOR_PATTERNS : List Re :=
  [ -- (?:🔼|♦️|🔸|🔹|💮)?\s*этаж\s*[:\-–]?\s*(\d+)
    rseq [ropt (ralts [rstr "🔼", rstr "♦️", rstr "🔸", rstr "🔹", rstr "💮"]),
          ws0, rstr "этаж", ws0, ropt (.one sep), ws0, dgrp 1],
    -- (\d+)\s*этаж(?!н)
    rseq [dgrp 1, ws0, rstr "этаж", .nla (.lit 'н')],
    -- qavat\s*[:\-–]?\s*(\d+)
    rseq [rstr "qavat", ws0, ropt (.one sep), ws0, dgrp 1] ]

/-- `TOTAL_FLOORS_PATTERNS` (all `re.I`). -/
def TOTAL_FLOORS_PATTERNS : List Re :=
  [ -- (?:⏫|🔸|🔹|💮)?\s*этажност[ьи]\s*[:\-–]?\s*(\d+)
    rseq [ropt (ralts [rstr "⏫", rstr "🔸", rstr "🔹", rstr "💮"]), ws0,
          rstr "этажност", .one (rcls "ьи"), ws0, ropt (.one sep), ws0, dgrp 1],
    -- этажей\s*(?:в\s*доме)?\s*[:\-–]?\s*(\d+)
    rseq [rstr "этажей", ws0, ropt (rseq [rstr "в", ws0, rstr "доме"]), ws0,
          ropt (.one sep), ws0, dgrp 1],
    -- (\d+)\s*[–\-]?\s*этажн(?:ый|ая|ое|ость)
    rseq [dgrp 1, ws0, ropt (.one (rcls "–-")), ws0, rstr "этажн",
          ralts [rstr "ый", rstr "ая", rstr "ое", rstr "ость"]] ]

/-- `(\d+(?:[.,]\d+)?)` — decimal number group used by the area patterns. -/
def decGrp : Re :=
  .grp 1 (rseq [.rep .digit 1 none true,
                ropt (rseq [.one (rcls ".,"), .rep .digit 1 none true])])

/-- `AREA_PATTERNS` (all `re.I`). -/
def AREA_PATTERNS : List Re :=
  [ -- (?:📐|🔎)?\s*(?:общая\s+)?площад[ьия]\s*[:\-–]?\s*(\d+(?:[.,]\d+)?)\s*(?:кв\.?\s*м(?:етр)?|м[²2]?)?
    rseq [ropt (ralts [rstr "📐", rstr "🔎"]), ws0,
          ropt (rseq [rstr "общая", ws1]), rstr "площад", .one (rcls "ьия"),
          ws0, ropt (.one sep), ws0, decGrp, ws0,
          ropt (ralts [rseq [rstr "кв", ropt (rstr "."), ws0, rstr "м", ropt (rstr "етр")],
                       rseq [rstr "м", ropt (.one (rcls "²2"))]])],
    -- (\d+(?:[.,]\d+)?)\s*(?:кв\.?\s*м|м[²2])
    rseq [decGrp, ws0,
          ralts [rseq [rstr "кв", ropt (rstr "."), ws0, rstr "м"],
                 rseq [rstr "м", .one (rcls "²2")]]],
    -- площад[ьия]\s*(\d+)\s*кв
    rseq [rstr "площад", .one (rcls "ьия"), ws0, dgrp 1, ws0, rstr "кв"] ]

/-- `y\.?e\.?` — the "у.е." unit in Latin letters. -/
def yeUnit : Re := rseq [rstr "y", ropt (rstr "."), rstr "e", ropt (rstr ".")]

/-- `PRICE_PATTERNS` (all `re.I`). -/
def PRICE_PATTERNS : List Re :=
  [ -- (?:💸|💰)?\s*(?:цена|narx)\s*[:\-–]?\s*(\d[\d\s]*)\s*(\$|y\.?e\.?|уе|долл|сум)?
    rseq [ropt (ralts [rstr "💸", rstr "💰"]), ws0,
          ralts [rstr "цена", rstr "narx"], ws0, ropt (.one sep), ws0,
          .grp 1 (rseq [.one .digit, .rep (.cls false [.digitI, .spaceI]) 0 none true]),
          ws0,
          ropt (.grp 2 (ralts [rstr "$", yeUnit, rstr "уе", rstr "долл", rstr "сум"]))],
    -- (\d{3,})\s*(\$|y\.?e\.?|уе|долл)
    rseq [.grp 1 (.rep .digit 3 none true), ws0,
          .grp 2 (ralts [rstr "$", yeUnit, rstr "уе", rstr "долл"])],
    -- (\d{3,})\s*\$\s*\+
    rseq [.grp 1 (.rep .digit 3 none true), ws0, rstr "$", ws0, rstr "+"],
    -- narx\s*[:\-–]?\s*(\d+)\s*(\$|so\'?m|сум)?
    rseq [rstr "narx", ws0, ropt (.one sep), ws0, dgrp 1, ws0,
          ropt (.grp 2 (ralts [rstr "$",
                               rseq [rstr "so", ropt (.one (.lit apos)), rstr "m"],
                               rstr "сум"]))] ]

/-- `DEPOSIT_PATTERNS` (all `re.I`). -/
def DEPOSIT_PATTERNS : List Re :=
  [ -- \+\s*(\d+)\s*\$?\s*депозит
    rseq [rstr "+", ws0, dgrp 1, ws0, ropt (rstr "$"), ws0, rstr "депозит"],
    -- депозит\s*[:\-–]?\s*(\d+)\s*\$?
    rseq [rstr "депозит", ws0, ropt (.one sep), ws0, dgrp 1, ws0, ropt (rstr "$")],
    -- депозит\s+(\d+)
    rseq [rstr "депозит", ws1, dgrp 1],
    -- \|депозит\s*(\d+)
    rseq [rstr "|", rstr "депозит", ws0, dgrp 1] ]

/-- `без\s+депозит` (`NO_DEPOSIT_PATTERN`, `re.I`). -/
def NO_DEPOSIT_PATTERN : Re := rseq [rstr "без", ws1, rstr "депозит"]

/-- `депозит|deposit` — the bare-word check in `parse_deposit` (`re.I`). -/
def DEPOSIT_WORD : Re := ralts [rstr "депозит", rstr "deposit"]

/-- `[А-ЯЁа-яё\-]` -/
def cyrDash : CPred :=
  .cls false [.rng 'А' 'Я', .ch 'Ё', .rng 'а' 'я', .ch 'ё', .ch '-']
/-- `[А-ЯЁа-яё\s\-]` -/
def cyrSpDash : CPred :=
  .cls false [.rng 'А' 'Я', .ch 'Ё', .rng 'а' 'я', .ch 'ё', .spaceI, .ch '-']
/-- `[А-ЯЁа-яё\s]` -/
def cyrSp : CPred := .cls false [.rng 'А' 'Я', .ch 'Ё', .rng 'а' 'я', .ch 'ё', .spaceI]
/-- `[A-Za-z'\s]` -/
def latAposSp : CPred := .cls false [.rng 'A' 'Z', .rng 'a' 'z', .ch apos, .spaceI]

/-- `([А-ЯЁа-яё\-]+(?:ский|ий))\s+район` (inline in `parse_district`, `re.I`). -/
def DISTRICT_MENTION : Re :=
  rseq [.grp 1 (rseq [.rep cyrDash 1 none true, ralts [rstr "ский", rstr "ий"]]),
        ws1, rstr "район"]

/-- `район\s*[:\-–]\s*([А-ЯЁа-яё\s\-]+?)(?:\s*[,\n📍🎯🏢]|$)` (inline, `re.I`). -/
def DISTRICT_LABEL : Re :=
  rseq [rstr "район", ws0, .one sep, ws0, .grp 1 (.rep cyrSpDash 1 none false),
        ralts [rseq [ws0, .one (rcls ",\n📍🎯🏢")], .eos]]

/-- `([A-Za-z'\s]+)\s+tumani` (inline in `parse_district`, `re.I`). -/
def DISTRICT_TUMANI : Re :=
  rseq [.grp 1 (.rep latAposSp 1 none true), ws1, rstr "tumani"]

/-- `METRO_PATTERNS` (all `re.I`). -/
def METRO_PATTERNS : List Re :=
  [ -- метро\s+([А-ЯЁа-яёA-Za-z\s\']+?)(?:\s*[,\n🚊📍]|$)
    rseq [rstr "метро", ws1,
          .grp 1 (.rep (.cls false [.rng 'А' 'Я', .ch 'Ё', .rng 'а' 'я', .ch 'ё',
                                    .rng 'A' 'Z', .rng 'a' 'z', .spaceI, .ch apos])
                       1 none false),
          ralts [rseq [ws0, .one (rcls ",\n🚊📍")], .eos]],
    -- metro\s+([A-Za-z\s\']+?)(?:\s*[,\n🚊]|$)
    rseq [rstr "metro", ws1, .grp 1 (.rep latAposSp 1 none false),
          ralts [rseq [ws0, .one (rcls ",\n🚊")], .eos]] ]

/-- `ADDRESS_PATTERNS` (all `re.I`), paired with the flag the source
computes by checking whether the pattern string contains the landmark
words (`'ориентир' in pattern.pattern.lower() or "mo'ljal" in ...`):
the second pattern is the landmark one. -/
def ADDRESS_PATTERNS : List (Re × Bool) :=
  [ -- (?:🎯|⛳️)?\s*(?:адрес|manzil)\s*[:\-–]?\s*(.+?)(?:\n|$)
    (rseq [ropt (ralts [rstr "🎯", rstr "⛳️"]), ws0,
           ralts [rstr "адрес", rstr "manzil"], ws0, ropt (.one sep), ws0,
           .grp 1 (.rep .dot 1 none false), ralts [rstr "\n", .eos]], false),
    -- (?:ор[–\-]р|ориентир|mo\'ljal)\s*[:\-–]?\s*(.+?)(?:\n|$)
    (rseq [ralts [rseq [rstr "ор", .one (rcls "–-"), rstr "р"], rstr "ориентир",
                  rseq [rstr "mo", .one (.lit apos), rstr "ljal"]],
           ws0, ropt (.one sep), ws0,
           .grp 1 (.rep .dot 1 none false), ralts [rstr "\n", .eos]], true) ]

/-- `(?:жк|jk)\s*["\']?([А-ЯЁа-яёA-Za-z\s\-\']+)["\']?` (`JK_PATTERN`, `re.I`). -/
def JK_PATTERN : Re :=
  let quote : CPred := .cls false [.ch '"', .ch apos]
  rseq [ralts [rstr "жк", rstr "jk"], ws0, ropt (.one quote),
        .grp 1 (.rep (.cls false [.rng 'А' 'Я', .ch 'Ё', .rng 'а' 'я', .ch 'ё',
                                  .rng 'A' 'Z', .rng 'a' 'z', .spaceI, .ch '-',
                                  .ch apos]) 1 none true),
        ropt (.one quote)]

/-- `COMMISSION_PATTERNS` (all `re.I`). -/
def COMMISSION_PATTERNS : List Re :=
  [ -- комисс?ионн?ы?е?\s*(\d+)?\s*%?
    rseq [rstr "комис", ropt (rstr "с"), rstr "ион", ropt (rstr "н"),
          ropt (rstr "ы"), ropt (rstr "е"), ws0, ropt (dgrp 1), ws0, ropt (rstr "%")],
    -- maklerskiy\s*(\d+)?\s*%?
    rseq [rstr "maklerskiy", ws0, ropt (dgrp 1), ws0, ropt (rstr "%")],
    -- риелтор\s*услуги?\s*(\d+)?\s*%?
    rseq [rstr "риелтор", ws0, rstr "услуг", ropt (rstr "и"), ws0,
          ropt (dgrp 1), ws0, ropt (rstr "%")],
    -- \((\d+)\s*%\s*\)
    rseq [rstr "(", dgrp 1, ws0, rstr "%", ws0, rstr ")"] ]

/-- `NO_COMMISSION_PATTERNS` (all `re.I`). -/
def NO_COMMISSION_PATTERNS : List Re :=
  [ rseq [rstr "без", ws1, ralts [rstr "маклер", rstr "комисс", rstr "посредник"]],
    rstr "bezmakler",
    rseq [rstr "не", ws1, rstr "для", ws1, rstr "риелтор"] ]

/-- `CONDITION_PATTERNS` (all `re.I`).  The third pattern has no capture
group — the source relies on `match.lastindex` there (see
`parse_condition`). -/
def CONDITION_PATTERNS : List Re :=
  [ -- (?:🏷|🔷)?\s*состояние\s*[:\-–]?\s*([А-ЯЁа-яё\s]+?)(?:\s*[,\n🔹💮ID]|$)
    rseq [ropt (ralts [rstr "🏷", rstr "🔷"]), ws0, rstr "состояние", ws0,
          ropt (.one sep), ws0, .grp 1 (.rep cyrSp 1 none false),
          ralts [rseq [ws0, .one (rcls ",\n🔹💮ID")], .eos]],
    -- (евро\s*ремонт|новый\s*ремонт|хороший\s*ремонт|классический\s*ремонт)
    .grp 1 (ralts [rseq [rstr "евро", ws0, rstr "ремонт"],
                   rseq [rstr "новый", ws0, rstr "ремонт"],
                   rseq [rstr "хороший", ws0, rstr "ремонт"],
                   rseq [rstr "классический", ws0, rstr "ремонт"]]),
    -- evro\s*ta\'?mir
    rseq [rstr "evro", ws0, rstr "ta", ropt (.one (.lit apos)), rstr "mir"] ]

/-- `HOUSE_TYPE_PATTERNS` (all `re.I`). -/
def HOUSE_TYPE_PATTERNS : List Re :=
  [ -- тип\s*дома\s*[:\-–]?\s*([А-ЯЁа-яё\s]+?)(?:\s*[,\n🔹]|$)
    rseq [rstr "тип", ws0, rstr "дома", ws0, ropt (.one sep), ws0,
          .grp 1 (.rep cyrSp 1 none false),
          ralts [rseq [ws0, .one (rcls ",\n🔹")], .eos]],
    -- (новостройка|вторичн\w*(?:\s*фонд)?)
    .grp 1 (ralts [rstr "новостройка",
                   rseq [rstr "вторичн", .rep .word 0 none true,
                         ropt (rseq [ws0, rstr "фонд"])]]),
    -- (?:☑️)?\s*(новостройка|вторичн\w*)
    rseq [ropt (rstr "☑️"), ws0,
          .grp 1 (ralts [rstr "новостройка",
                         rseq [rstr "вторичн", .rep .word 0 none true]])] ]

/-- `AMENITIES` keyword regexes (each searched with `re.I` against the
lowercased text). -/
def FURNITURE_KWS : List Re :=
  [rseq [rstr "мебел", .one (rcls "ьия")], rstr "меблирован",
   rseq [rstr "с", ws1, rstr "мебелью"], rstr "mebel", rstr "диван",
   rstr "кровать", rstr "divan"]
def CONDITIONER_KWS : List Re :=
  [rstr "кондиц", rstr "сплит", rstr "konditsioner", rstr "konditsoner"]
def WASHING_KWS : List Re :=
  [rstr "стирал", rseq [rstr "стир", ropt (rstr "."), ws0, rstr "маш"],
   rstr "кирмошина", rstr "kirmoshina"]
def REFRIGERATOR_KWS : List Re := [rstr "холодильник", rstr "muzlatgich"]
def INTERNET_KWS : List Re :=
  [rstr "интернет", rseq [rstr "wi", ropt (rstr "-"), rstr "fi"], rstr "wifi"]
def TV_KWS : List Re := [rstr "телевизор", rstr "televizor", rstr "тв"]
def BALCONY_KWS : List Re := [rstr "балкон", rstr "лоджия", rstr "balkon"]

/-- `TENANT_PATTERNS` keyword regexes (each searched with `re.I`). -/
def FAMILY_KWS : List Re :=
  [rseq [rstr "семь", .one (rcls "яе")], rstr "oila", rstr "загс"]
def GIRLS_KWS : List Re := [rstr "девушк", rstr "qizlar"]
def GUYS_KWS : List Re := [rstr "парн", rstr "болларга", rstr "bollar"]
def SINGLE_KWS : List Re :=
  [rstr "одиноч", rseq [rstr "один", ws1, rstr "парень"],
   rseq [rstr "один", ws1, rstr "человек"]]

/-- `\bкомнат[уа]\b` (inline in `detect_object_type`, no flag). -/
def OBJ_ROOM : Re := rseq [.bnd, rstr "комнат", .one (rcls "уа"), .bnd]
/-- `\d+\s*[–\-]?\s*комнат` (guard against "N-комнатная", no flag). -/
def OBJ_NROOM : Re :=
  rseq [.rep .digit 1 none true, ws0, ropt (.one (rcls "–-")), ws0, rstr "комнат"]
/-- `(?:котедж|коттедж|частный\s+дом|hovli)` (no flag). -/
def OBJ_COTTAGE : Re :=
  ralts [rstr "котедж", rstr "коттедж", rseq [rstr "частный", ws1, rstr "дом"],
         rstr "hovli"]
/-- `\bдом\b` (no flag). -/
def OBJ_DOM : Re := rseq [.bnd, rstr "дом", .bnd]
/-- `тип\s+дома|в\s+доме|этажей\s+в\s+доме` (no flag). -/
def OBJ_DOM_CTX : Re :=
  ralts [rseq [rstr "тип", ws1, rstr "дома"], rseq [rstr "в", ws1, rstr "доме"],
         rseq [rstr "этажей", ws1, rstr "в", ws1, rstr "доме"]]

/-- `\d{2,4}\s*\$` (inline in `detect_is_real_estate`, no flag). -/
def DOLLAR_PRICE : Re := rseq [.rep .digit 2 (some 4) true, ws0, rstr "$"]

/-- `#([А-ЯЁа-яёA-Za-z0-9_]+)` (`extract_hashtags`, no flag). -/
def HASHTAG_RE : Re :=
  rseq [rstr "#",
        .grp 1 (.rep (.cls false [.rng 'А' 'Я', .ch 'Ё', .rng 'а' 'я', .ch 'ё',
                                  .rng 'A' 'Z', .rng 'a' 'z', .rng '0' '9',
                                  .ch '_']) 1 none true)]

/-- `\+?998\s*[\-\(\)]?\s*(\d{2})\s*[\-\(\)]?\s*(\d{3})\s*[\-\(\)]?\s*(\d{2})\s*[\-\(\)]?\s*(\d{2})`
(inline in `extract_phones`, no flag). -/
def PHONE_FULL : Re :=
  let psep : Re := ropt (.one (rcls "-()"))
  let d (n k : Nat) : Re := .grp n (.rep .digit k (some k) true)
  rseq [ropt (rstr "+"), rstr "998", ws0, psep, ws0, d 1 2, ws0, psep, ws0,
        d 2 3, ws0, psep, ws0, d 3 2, ws0, psep, ws0, d 4 2]

/-- `\b(\d{2})[\s\-]?(\d{3})[\s\-]?(\d{2})[\s\-]?(\d{2})\b`
(inline in `extract_phones`, no flag). -/
def PHONE_SHORT : Re :=
  let psep : Re := ropt (.one (.cls false [.spaceI, .ch '-']))
  let d (n k : Nat) : Re := .grp n (.rep .digit k (some k) true)
  rseq [.bnd, d 1 2, psep, d 2 3, psep, d 3 2, psep, d 4 2, .bnd]

/-- The emoji class removed by `clean_description` (one codepoint per
class member, variation selectors included, exactly as in the source
class literal). -/
def EMOJI_CLASS : CPred :=
  rcls "⚫🟠🔴🔹🔸💮📍🎯🏡💸📐⏫🔼♦️📣☎️✏️📲🔑✉️👉🪧☑️🔎🏷💵📱🔵📝🔗✅🎖💰⛳️👤🔥💎🏢"

/-- `patterns_to_remove` of `clean_description` (all applied with
`flags=re.I`). -/
def REMOVE_PATTERNS : List Re :=
  [ rseq [rstr "#", .rep .nonSpace 1 none true],                     -- #\S+
    .one EMOJI_CLASS,                                               -- emoji class
    rseq [rstr "+998", .rep (.cls false [.digitI, .spaceI, .ch '-']) 1 none true],
    rseq [rstr "t.me/", .rep .nonSpace 1 none true],                -- t\.me/\S+
    rseq [rstr "http", ropt (rstr "s"), rstr "://", .rep .nonSpace 1 none true],
    rseq [rstr "@", .rep .nonSpace 1 none true],                    -- @\S+
    rseq [rstr "ID", ws0, ropt (.one (rcls ":-")), ws0, .rep .digit 1 none true],
    rseq [.rep .digit 1 none true, rstr "/", .rep .digit 1 none true,
          rstr "/", .rep .digit 1 none true],                       -- \d+/\d+/\d+
    rseq [rstr "комисс", .rep .word 0 none true, ws0, .rep .digit 0 none true,
          ws0, ropt (rstr "%"), .rep (.cls true [.ch '\n']) 0 none true],
    rseq [rstr "maklerskiy", .rep (.cls true [.ch '\n']) 0 none true],
    rseq [rstr "риелтор", .rep (.cls true [.ch '\n']) 0 none true] ]

/-- `^[\d\s\-\+\(\)\.,:;/\\]+$` (line filter in `clean_description`,
no flag, used via `re.match`). -/
def LINE_TECH : Re :=
  rseq [.rep (.cls false [.digitI, .spaceI, .ch '-', .ch '+', .ch '(', .ch ')',
                          .ch '.', .ch ',', .ch ':', .ch ';', .ch '/',
                          .ch '\\']) 1 none true, .eos]

/-- `^[А-Яа-яЁё\s]+\s*[:\-–]\s*\d+` (line filter in `clean_description`,
no flag, used via `re.match`). -/
def LINE_LABELLED : Re :=
  rseq [.rep (.cls false [.rng 'А' 'Я', .rng 'а' 'я', .ch 'Ё', .ch 'ё', .spaceI])
             1 none true,
        ws0, .one sep, ws0, .rep .digit 1 none true]

/-- `\s+` (whitespace collapsing in `clean_description`, no flag). -/
def WS_RUN : Re := ws1

/-! ### Data tables (`DISTRICTS`, `METRO_STATIONS`), in source dict
insertion order -/

def DISTRICTS : List (String × String) :=
  [ ("мирзо улугбек", "Мирзо-Улугбекский"),
    ("мирзо-улугбек", "Мирзо-Улугбекский"),
    ("мирзо_улугбек", "Мирзо-Улугбекский"),
    ("мирзоулугбек", "Мирзо-Улугбекский"),
    ("мирзо улугбекский", "Мирзо-Улугбекский"),
    ("mirzo ulug" ++ sApos ++ "bek", "Мирзо-Улугбекский"),
    ("юнусабад", "Юнусабадский"),
    ("юнус абад", "Юнусабадский"),
    ("юнусабадский", "Юнусабадский"),
    ("yunusabad", "Юнусабадский"),
    ("чиланзар", "Чиланзарский"),
    ("чиланзарский", "Чиланзарский"),
    ("chilanzar", "Чиланзарский"),
    ("мирабад", "Мирабадский"),
    ("мирабадский", "Мирабадский"),
    ("mirabad", "Мирабадский"),
    ("яккасарай", "Яккасарайский"),
    ("яккасарайский", "Яккасарайский"),
    ("yakkasaroy", "Яккасарайский"),
    ("сергели", "Сергелийский"),
    ("сергелийский", "Сергелийский"),
    ("sergeli", "Сергелийский"),
    ("шайхантахур", "Шайхантахурский"),
    ("шайхонтогур", "Шайхантахурский"),
    ("шайхантахурский", "Шайхантахурский"),
    ("shayxontohur", "Шайхантахурский"),
    ("алмазар", "Алмазарский"),
    ("алмазарский", "Алмазарский"),
    ("olmazar", "Алмазарский"),
    ("бектемир", "Бектемирский"),
    ("бектемирский", "Бектемирский"),
    ("bektemir", "Бектемирский"),
    ("яшнабад", "Яшнабадский"),
    ("яшнобад", "Яшнабадский"),
    ("яшнабадский", "Яшнабадский"),
    ("yashnabad", "Яшнабадский"),
    ("учтепа", "Учтепинский"),
    ("учтепинский", "Учтепинский"),
    ("uchtepa", "Учтепинский"),
    ("ц-1", "Мирзо-Улугбекский") ]

def METRO_STATIONS : List (String × String) :=
  [ ("минор", "Минор"),
    ("minor", "Минор"),
    ("ойбек", "Ойбек"),
    ("oybek", "Ойбек"),
    ("пушкин", "Пушкинская"),
    ("космонавтов", "Космонавтлар"),
    ("хамид олимжон", "Хамида Олимжона"),
    ("буюк ипак йули", "Буюк Ипак Йўли"),
    ("buyuk ipak yo" ++ sApos ++ "li", "Буюк Ипак Йўли"),
    ("милий бог", "Миллий Боғ"),
    ("milliy bog", "Миллий Боғ"),
    ("тузель", "Тузел"),
    ("tuzel", "Тузел"),
    ("сергели", "Сергели"),
    ("sergeli", "Сергели"),
    ("чкалов", "Чкалов") ]

/-! ### Helper functions of the parser module -/

def digitsToNat (l : List Char) : Nat :=
  l.foldl (fun a c => a * 10 + (c.toNat - 48)) 0

/-- `extract_number`: strips `[\s\-]` and then every non-digit, so the
net effect keeps exactly the digit characters; `int()` of a nonempty
digit string never fails. -/
def extract_number (t : String) : Option Nat :=
  let ds := t.data.filter isDigitCh
  if ds.isEmpty then none else some (digitsToNat ds)

/-- Value of a decimal-digit string with an optional single dot, as an
exact rational.  (The source goes through IEEE `float`; the values
compared against the bounds 5 and 1000 are decimal literals, for which
the comparisons agree, so rounding is abstracted away.) -/
def decValue (l : List Char) : ℚ :=
  let intPart := l.takeWhile (fun c => c ≠ '.')
  let fracPart := (l.dropWhile (fun c => c ≠ '.')).drop 1
  (digitsToNat intPart : ℚ) + (digitsToNat fracPart : ℚ) / ((10 : ℚ) ^ fracPart.length)

/-- `(\d+(?:\.\d+)?)` used by `extract_float` after comma→dot
replacement. -/
def FLOAT_RE : Re :=
  .grp 1 (rseq [.rep .digit 1 none true,
                ropt (rseq [rstr ".", .rep .digit 1 none true])])

/-- `extract_float`. -/
def extract_float (t : String) : Option ℚ :=
  if t = "" then none
  else
    let t := pyReplace t "," "."
    match rsearch false FLOAT_RE t with
    | some m =>
      match groupOf t m 1 with
      | some g => some (decValue g.data)
      | none => none
    | none => none

/-- `match_first`. -/
def match_first (ci : Bool) (patterns : List Re) (t : String) : Option (Re × MRes) :=
  firstSome (fun p => (rsearch ci p t).map (fun m => (p, m))) patterns

/-- `check_any_keyword` (the keywords are regexes searched with `re.I`
against the lowercased text). -/
def check_any_keyword (t : String) (kws : List Re) : Bool :=
  let tl := pyLower t
  kws.any (fun k => (rsearch true k tl).isSome)

/-- Whitespace collapsing `re.sub(r'\s+', ' ', s)`. -/
def collapseWs (s : String) : String := rsub false WS_RUN " " s

/-- `normalize_district`. -/
def normalize_district (raw : String) : Option String :=
  if raw = "" then none
  else
    let clean := String.mk ((pyLower raw).data.map
      (fun c => if c = '#' || c = '_' || c = '-' then ' ' else c))
    let clean := pyStrip clean
    let clean := collapseWs clean
    match DISTRICTS.find? (fun kv => substr kv.1 clean || substr clean kv.1) with
    | some kv => some kv.2
    | none => if clean.length > 3 then some (pyTitle clean) else none

/-- `normalize_metro`. -/
def normalize_metro (raw : String) : Option String :=
  if raw = "" then none
  else
    let clean := pyStrip (pyLower raw)
    match METRO_STATIONS.find? (fun kv => substr kv.1 clean) with
    | some kv => some kv.2
    | none => if clean.length > 2 then some (pyTitle clean) else none

/-! ### Extractors -/

/-- `extract_phones`.  Python accumulates into a `set`; the embedding
keeps first-insertion order (CPython set iteration order is
hash-dependent and carries no meaning downstream). -/
def extract_phones (t : String) : List String :=
  if t = "" then []
  else
    let addUnique (l : List String) (x : String) : List String :=
      if x ∈ l then l else l ++ [x]
    let joined (m : MRes) : String :=
      ((groupOf t m 1).getD "") ++ ((groupOf t m 2).getD "") ++
      ((groupOf t m 3).getD "") ++ ((groupOf t m 4).getD "")
    let phones := (rfinditer false PHONE_FULL t).foldl
      (fun acc m => addUnique acc ("+998" ++ joined m)) []
    if phones.isEmpty then
      (rfinditer false PHONE_SHORT t).foldl
        (fun acc m =>
          let digits := joined m
          match digits.data.head? with
          | some c => if c = '7' || c = '8' || c = '9'
                      then addUnique acc ("+998" ++ digits) else acc
          | none => acc) []
    else phones

/-- The match underlying `parse_triple_format`: the three captured
digit strings of the first `TRIPLE_FORMAT` match, as integers
(`int()` of a `\d+` capture cannot fail). -/
def tripleMatch (t : String) : Option (Nat × Nat × Nat) :=
  match rsearch false TRIPLE_FORMAT t with
  | some m =>
    match groupOf t m 1, groupOf t m 2, groupOf t m 3 with
    | some a, some b, some c =>
      some (digitsToNat a.data, digitsToNat b.data, digitsToNat c.data)
    | _, _, _ => none
  | none => none

/-- `parse_triple_format`. -/
def parse_triple_format (t : String) : Option Nat × Option Nat × Option Nat :=
  match tripleMatch t with
  | some (rooms, floor, total_floors) =>
    if 0 < rooms ∧ rooms ≤ 10 ∧ 0 < floor ∧ floor ≤ 50 ∧
       0 < total_floors ∧ total_floors ≤ 50 ∧ floor ≤ total_floors
    then (some rooms, some floor, some total_floors)
    else (none, none, none)
  | none => (none, none, none)

/-- `parse_rooms`. -/
def parse_rooms (t : String) : Option Nat :=
  match match_first true ROOMS_PATTERNS t with
  | some (_, m) =>
    match (groupOf t m 1).bind extract_number with
    | some rooms => if 0 < rooms ∧ rooms ≤ 10 then some rooms else none
    | none => none
  | none => none

/-- `parse_floor` (note: the source only rejects values over 50 when
they are truthy, so a parsed `0` is kept). -/
def parse_floor (t : String) : Option Nat × Option Nat :=
  let floor :=
    match match_first true FLOOR_PATTERNS t with
    | some (_, m) =>
      match (groupOf t m 1).bind extract_number with
      | some f => if f > 50 then none else some f
      | none => none
    | none => none
  let total_floors :=
    match match_first true TOTAL_FLOORS_PATTERNS t with
    | some (_, m) =>
      match (groupOf t m 1).bind extract_number with
      | some tf => if tf > 50 then none else some tf
      | none => none
    | none => none
  (floor, total_floors)

/-- `parse_area` (`if area and 5 < area < 1000`). -/
def parse_area (t : String) : Option ℚ :=
  match match_first true AREA_PATTERNS t with
  | some (_, m) =>
    match (groupOf t m 1).bind extract_float with
    | some area => if area ≠ 0 ∧ 5 < area ∧ area < 1000 then some area else none
    | none => none
  | none => none

/-- The currency decision of `parse_price` for one match: `usd` by
default, `uzs` when the explicit unit group names the local currency,
overridden to `uzs` for magnitudes above 50 000. -/
def price_currency (t : String) (m : MRes) (price : Nat) : String :=
  let hasUnit :=
    (match lastIdx m with | some li => li ≥ 2 | none => false) &&
    truthyStr (groupOf t m 2)
  let currency :=
    if hasUnit then
      let cur_raw := pyLower ((groupOf t m 2).getD "")
      if substr "сум" cur_raw || substr "sum" cur_raw ||
         substr ("so" ++ sApos ++ "m") cur_raw
      then "uzs" else "usd"
    else "usd"
  if price > 50000 then "uzs" else currency

/-- The pattern loop of `parse_price`: tries the price patterns in
order; a falsy extracted number continues to the next pattern, and the
price is accepted only inside the per-currency plausibility band. -/
def price_loop (t : String) : List Re → Option Nat × Option String
  | [] => (none, none)
  | p :: rest =>
    match rsearch true p t with
    | none => price_loop t rest
    | some m =>
      match (groupOf t m 1).bind extract_number with
      | none => price_loop t rest
      | some price =>
        if price = 0 then price_loop t rest
        else if price_currency t m price = "usd" ∧ 50 ≤ price ∧ price ≤ 10000 then
          (some price, some "usd")
        else if price_currency t m price = "uzs" ∧ price ≥ 100000 then
          (some price, some "uzs")
        else price_loop t rest

/-- `parse_price`. -/
def parse_price (t : String) : Option Nat × Option String :=
  price_loop t PRICE_PATTERNS

/-- The deposit-amount loop of `parse_deposit`: first match of each
pattern in order, accepted when the amount lies in `[10, 10000]`. -/
def depositAmount (t : String) : Option Nat :=
  let rec go : List Re → Option Nat
    | [] => none
    | p :: rest =>
      match rsearch true p t with
      | none => go rest
      | some m =>
        match (groupOf t m 1).bind extract_number with
        | some d => if 10 ≤ d ∧ d ≤ 10000 then some d else go rest
        | none => go rest
  go DEPOSIT_PATTERNS

/-- `parse_deposit`.  (Both source return paths after the amount loop
yield `(None, False)`; the bare-word check is kept for fidelity.) -/
def parse_deposit (t : String) : Option Nat × Bool :=
  if (rsearch true NO_DEPOSIT_PATTERN t).isSome then (none, true)
  else
    match depositAmount t with
    | some d => (some d, false)
    | none =>
      if (rsearch true DEPOSIT_WORD t).isSome then (none, false)
      else (none, false)

/-- The hashtag loop of `parse_district`: tags whose lowercased,
underscore-split form contains an excluded vocabulary word are skipped;
the first remaining tag that normalizes to a district wins. -/
def districtFromTags : List String → Option String
  | [] => none
  | tag :: rest =>
    let tag_lower := pyReplace (pyLower tag) "_" " "
    if substr "комнат" tag_lower || substr "долл" tag_lower ||
       substr "oila" tag_lower || substr "qiz" tag_lower ||
       substr "boll" tag_lower
    then districtFromTags rest
    else
      match normalize_district tag with
      | some d => some d
      | none => districtFromTags rest

/-- `parse_district`. -/
def parse_district (t : String) (hashtags : List String) : Option String :=
  let step1 :=
    match rsearch true DISTRICT_MENTION t with
    | some m => (groupOf t m 1).bind normalize_district
    | none => none
  match step1 with
  | some d => some d
  | none =>
    let step2 :=
      match rsearch true DISTRICT_LABEL t with
      | some m => (groupOf t m 1).bind normalize_district
      | none => none
    match step2 with
    | some d => some d
    | none =>
      match districtFromTags hashtags with
      | some d => some d
      | none =>
        match rsearch true DISTRICT_TUMANI t with
        | some m => (groupOf t m 1).bind normalize_district
        | none => none

/-- `parse_metro`. -/
def parse_metro (t : String) : Option String :=
  match match_first true METRO_PATTERNS t with
  | some (_, m) => (groupOf t m 1).bind normalize_metro
  | none => none

/-- `parse_address`: first address pattern whose stripped capture is
longer than 3 characters wins (assigned to landmark for the
landmark-flagged pattern), then a `ЖК` name is prepended/created. -/
def parse_address (t : String) : Option String × Option String :=
  let rec go : List (Re × Bool) → Option String × Option String
    | [] => (none, none)
    | (p, isLandmark) :: rest =>
      match rsearch true p t with
      | some m =>
        let raw := pyStrip ((groupOf t m 1).getD "")
        if raw.length > 3 then
          if isLandmark then (none, some raw) else (some raw, none)
        else go rest
      | none => go rest
  let (address, landmark) := go ADDRESS_PATTERNS
  match rsearch true JK_PATTERN t with
  | some m =>
    let jk_name := pyStrip ((groupOf t m 1).getD "")
    match address with
    | some a => (some ("ЖК " ++ jk_name ++ ", " ++ a), landmark)
    | none => (some ("ЖК " ++ jk_name), landmark)
  | none => (address, landmark)

/-- `parse_commission`. -/
def parse_commission (t : String) : Bool × Option Nat :=
  if NO_COMMISSION_PATTERNS.any (fun p => (rsearch true p t).isSome) then
    (false, none)
  else
    let rec go : List Re → Bool × Option Nat
      | [] => (false, none)
      | p :: rest =>
        match rsearch true p t with
        | some m =>
          let pct :=
            if (match lastIdx m with | some li => li ≠ 0 && li ≥ 1 | none => false) &&
               truthyStr (groupOf t m 1)
            then extract_number ((groupOf t m 1).getD "")
            else none
          (true, pct)
        | none => go rest
    go COMMISSION_PATTERNS

/-- `parse_condition`.  The source computes
`cond = match.group(1).strip() if match.lastindex >= 1 else match.group(0).strip()`;
when the third pattern (which has no capture group) is the one that
matched, `match.lastindex` is `None` and the comparison `None >= 1`
raises `TypeError` — modelled as `Except.error`. -/
def parse_condition (t : String) : Except String (Option String) :=
  let rec go : List Re → Except String (Option String)
    | [] => .ok none
    | p :: rest =>
      match rsearch true p t with
      | none => go rest
      | some m =>
        match lastIdx m with
        | none => .error "TypeError: NoneType >= int in parse_condition"
        | some li =>
          let cond :=
            if li ≥ 1 then pyStrip ((groupOf t m 1).getD "")
            else pyStrip (group0 t m)
          if cond.length > 2 then .ok (some (pyReplace (pyLower cond) "  " " "))
          else go rest
  go CONDITION_PATTERNS

/-- `parse_house_type`.  Every pattern in `HOUSE_TYPE_PATTERNS` has a
mandatory capture group, so its `lastindex` is always `1`; the `None`
branch mirrors the same `TypeError` hazard as `parse_condition` but is
unreachable here. -/
def parse_house_type (t : String) : Except String (Option String) :=
  let rec go : List Re → Except String (Option String)
    | [] => .ok none
    | p :: rest =>
      match rsearch true p t with
      | none => go rest
      | some m =>
        match lastIdx m with
        | none => .error "TypeError: NoneType >= int in parse_house_type"
        | some li =>
          let raw :=
            if li ≥ 1 then pyStrip (pyLower ((groupOf t m 1).getD ""))
            else pyLower (group0 t m)
          if substr "новостройка" raw || substr "novostroy" raw then
            .ok (some "новостройка")
          else if substr "вторичн" raw then .ok (some "вторичка")
          else go rest
  go HOUSE_TYPE_PATTERNS

/-- `parse_tenant_type` (dict iteration order: family, girls, guys,
single). -/
def parse_tenant_type (t : String) : List String :=
  (if check_any_keyword t FAMILY_KWS then ["family"] else []) ++
  (if check_any_keyword t GIRLS_KWS then ["girls"] else []) ++
  (if check_any_keyword t GUYS_KWS then ["guys"] else []) ++
  (if check_any_keyword t SINGLE_KWS then ["single"] else [])

/-- `detect_deal_type`. -/
def detect_deal_type (t : String) (hashtags : List String) : String :=
  let tl := pyLower t
  let tags := joinSpace (hashtags.map pyLower)
  if substr "сниму" tl || substr "ищу квартиру" tl || substr "ищу комнату" tl ||
     substr "нужна квартира" tl then "wanted_rent"
  else if substr "куплю" tl then "wanted_buy"
  else if substr "посуточно" tl || substr "сутки" tl || substr "sutka" tl then
    "rent_daily"
  else if substr "продам" tl || substr "продаю" tl || substr "продажа" tl ||
          substr "sotiladi" tl || substr "продажа" tags then "sale"
  else "rent_long"

/-- `detect_object_type` (the `rooms` parameter is unused, as in the
source). -/
def detect_object_type (t : String) (_rooms : Option Nat) : String :=
  let tl := pyLower t
  if substr "студия" tl || substr "studio" tl then "studio"
  else if (rsearch false OBJ_ROOM tl).isSome ∧ ¬(rsearch false OBJ_NROOM tl).isSome
  then "room"
  else if (rsearch false OBJ_COTTAGE tl).isSome then "house"
  else if (rsearch false OBJ_DOM tl).isSome ∧ ¬(rsearch false OBJ_DOM_CTX tl).isSome
  then "house"
  else if substr "участок" tl || substr "соток" tl || substr "yer" tl then "land"
  else if substr "офис" tl || substr "коммерч" tl then "commercial"
  else "flat"

/-- `detect_is_real_estate`. -/
def detect_is_real_estate (t : String) (hashtags : List String) : Bool :=
  let tl := pyLower t
  let tags := joinSpace (hashtags.map pyLower)
  let keywords := ["квартир", "комнат", "аренда", "сдается", "сдаётся", "сдам",
                   "этаж", "депозит", "комисс", "риелтор", "маклер",
                   "xona", "ijara", "kvartira", "narx", "maklerskiy"]
  if keywords.any (fun k => substr k tl) then true
  else if substr "аренда" tags || substr "квартира" tags || substr "rent" tags then
    true
  else if (rsearch false TRIPLE_FORMAT t).isSome then true
  else if (rsearch false DOLLAR_PRICE tl).isSome then true
  else false

/-- `extract_hashtags` (`re.findall` returns the group-1 captures). -/
def extract_hashtags (t : String) : List String :=
  (rfinditer false HASHTAG_RE t).filterMap (fun m => groupOf t m 1)

/-- `clean_description`. -/
def clean_description (t : String) : String :=
  if t = "" then ""
  else
    let result := REMOVE_PATTERNS.foldl (fun acc p => rsub true p " " acc) t
    let lines := result.splitOn "\n"
    let clean_lines := lines.filterMap (fun line =>
      let line := pyStrip line
      if line = "" then none
      else if (rmatchAt0 false LINE_TECH line).isSome then none
      else if line.length < 10 then none
      else if (rmatchAt0 false LINE_LABELLED line).isSome then none
      else some line)
    let result := joinSpace clean_lines
    let result := pyStrip (collapseWs result)
    if result.length ≥ 20 then result else ""

/-! ### `parse_listing` -/

/-- The result dictionary of `parse_listing`.  Keys absent from the
dictionary (everything except `is_real_estate` in the
not-real-estate branch) are `none`. -/
structure Listing where
  is_real_estate : Bool
  deal_type : Option String := none
  object_type : Option String := none
  rooms : Option Nat := none
  floor : Option Nat := none
  total_floors : Option Nat := none
  area_m2 : Option ℚ := none
  price : Option Nat := none
  currency : Option String := none
  price_period : Option String := none
  deposit : Option Nat := none
  no_deposit : Option Bool := none
  district_raw : Option String := none
  metro_raw : Option String := none
  address_raw : Option String := none
  landmark : Option String := none
  has_commission : Option Bool := none
  commission_pct : Option Nat := none
  condition : Option String := none
  house_type : Option String := none
  has_furniture : Option Bool := none
  has_conditioner : Option Bool := none
  has_washing_machine : Option Bool := none
  has_refrigerator : Option Bool := none
  has_internet : Option Bool := none
  has_tv : Option Bool := none
  has_balcony : Option Bool := none
  tenant_types : Option (List String) := none
  phones : Option (List String) := none
  description_clean : Option String := none
  parse_score : Option Nat := none
  needs_review : Option Bool := none
  deriving Repr, DecidableEq

/-- `{"is_real_estate": False}`. -/
def notRealEstate : Listing := { is_real_estate := false }

/-- The real-estate branch of `parse_listing` (the body after the
`is_real_estate` gate), for a stripped text, resolved hashtags, and the
already-computed results of the two fallible extractors.  Evaluation
order of the remaining extractors is immaterial: they are total. -/
def build_listing (text : String) (hashtags : List String)
    (condition house_type : Option String) : Listing :=
  let triple := parse_triple_format text
  let rooms := match triple.1 with | some r => some r | none => parse_rooms text
  let ftf := parse_floor text
  let floor := match triple.2.1 with | some x => some x | none => ftf.1
  let total_floors := match triple.2.2 with | some x => some x | none => ftf.2
  let area := parse_area text
  let pc := parse_price text
  let price := pc.1
  let currency := pc.2
  let dep := parse_deposit text
  let deposit := dep.1
  let no_deposit := dep.2
  let district := parse_district text hashtags
  let metro := parse_metro text
  let al := parse_address text
  let address := al.1
  let landmark := al.2
  let hc := parse_commission text
  let has_commission := hc.1
  let commission_pct := hc.2
  let amenF := check_any_keyword text FURNITURE_KWS
  let amenC := check_any_keyword text CONDITIONER_KWS
  let amenW := check_any_keyword text WASHING_KWS
  let amenR := check_any_keyword text REFRIGERATOR_KWS
  let amenI := check_any_keyword text INTERNET_KWS
  let amenT := check_any_keyword text TV_KWS
  let amenB := check_any_keyword text BALCONY_KWS
  let tenant_types := parse_tenant_type text
  let phones := extract_phones text
  let deal_type := detect_deal_type text hashtags
  let object_type := detect_object_type text rooms
  let description := clean_description text
  let parse_score :=
    (if truthyNat rooms then 2 else 0) +
    (if truthyNat floor then 1 else 0) +
    (if truthyNat total_floors then 1 else 0) +
    (if (match area with | some a => decide (a ≠ 0) | none => false) then 1 else 0) +
    (if truthyNat price then 3 else 0) +
    (if truthyStr district then 2 else 0) +
    (if truthyStr metro then 1 else 0) +
    (if phones ≠ [] then 1 else 0)
  { is_real_estate := true
    deal_type := some deal_type
    object_type := some object_type
    rooms := rooms
    floor := floor
    total_floors := total_floors
    area_m2 := area
    price := price
    currency := currency
    price_period := some (if deal_type = "rent_daily" then "day" else "month")
    deposit := deposit
    no_deposit := some no_deposit
    district_raw := district
    metro_raw := metro
    address_raw := address
    landmark := landmark
    has_commission := some has_commission
    commission_pct := commission_pct
    condition := condition
    house_type := house_type
    has_furniture := some amenF
    has_conditioner := some amenC
    has_washing_machine := some amenW
    has_refrigerator := some amenR
    has_internet := some amenI
    has_tv := some amenT
    has_balcony := some amenB
    tenant_types := some tenant_types
    phones := some phones
    description_clean := some description
    parse_score := some parse_score
    needs_review := some (decide (parse_score < 5)) }

/-- `hashtags = hashtags or extract_hashtags(text)`: a falsy argument
(`None` or the empty list) falls back to extraction from the text. -/
def resolve_hashtags (text : String) (hashtags : Option (List String)) :
    List String :=
  match hashtags with
  | some (h :: rest) => h :: rest
  | _ => extract_hashtags text

/-- `parse_listing`.  The only fallible calls are `parse_condition` and
`parse_house_type` (via the unguarded `match.lastindex >= 1`
comparison); every other extractor is total, so sequencing them before
the record construction preserves the observable behaviour of the
source. -/
def parse_listing (text : String) (hashtags : Option (List String)) :
    Except String Listing :=
  if text = "" then .ok notRealEstate
  else
    if ¬detect_is_real_estate (pyStrip text)
        (resolve_hashtags (pyStrip text) hashtags) then .ok notRealEstate
    else
      match parse_condition (pyStrip text) with
      | .error e => .error e
      | .ok condition =>
        match parse_house_type (pyStrip text) with
        | .error e => .error e
        | .ok house_type =>
          .ok (build_listing (pyStrip text)
                (resolve_hashtags (pyStrip text) hashtags) condition house_type)

/-! ### Ingestion and duplicate resolution
(`database/post_service.py`, `database/repository.py`)

The storage collaborator is modelled as in-memory lists standing for the
`posts` and `duplicates` tables.  The SHA-256 / MD5 digests of
`compute_text_hash` / `compute_fingerprint` are abstract `String → String`
functions passed as parameters: the resolver only ever compares digests
for equality and never inspects them, so every theorem quantifies over
the digest function.  Channel and media rows are not modelled: no claim
mentions them and they do not feed back into the resolver.  Wall-clock
fallback in `_parse_date` is outside the model: timestamps arrive as
abstract `Nat` instants on the post data. -/

/-- A row of the `posts` table (the fields read or written by
`save_post` / `_check_duplicates`). -/
structure DPost where
  id : Nat
  post_uid : String
  published_at : Nat
  text_hash : Option String
  phones : List String
  duplicate_of : Option Nat
  is_deleted : Bool
  deriving Repr, DecidableEq

/-- A row of the `duplicates` table. -/
structure DupLink where
  original_id : Nat
  duplicate_id : Nat
  similarity : ℚ
  match_type : String
  deriving Repr, DecidableEq

/-- The storage state: posts, duplicate links, a set of post ids that
carry a listing row, and the id counter. -/
structure DB where
  posts : List DPost
  dups : List DupLink
  listings : List Nat
  next_id : Nat
  deriving Repr, DecidableEq

/-- `ORDER BY published_at` (ascending); ties are left in an
unspecified but deterministic order, as in the source query. -/
def insertByPub (q : DPost) : List DPost → List DPost
  | [] => [q]
  | x :: xs =>
    if q.published_at < x.published_at then q :: x :: xs
    else x :: insertByPub q xs

def sortByPub : List DPost → List DPost
  | [] => []
  | x :: xs => insertByPub x (sortByPub xs)

/-- The `exclude_id` filter: applied only when `exclude_id` is truthy
(`if exclude_id:` in `find_duplicates_by_hash`/`_by_phone`). -/
def excludeFilter (excludeId : Option Nat) (q : DPost) : Bool :=
  match excludeId with
  | some e => if e ≠ 0 then q.id ≠ e else true
  | none => true

/-- `PostRepo.find_duplicates_by_hash`. -/
def find_duplicates_by_hash (posts : List DPost) (h : String)
    (excludeId : Option Nat) : List DPost :=
  sortByPub (posts.filter (fun q =>
    q.text_hash == some h && !q.is_deleted && excludeFilter excludeId q))

/-- `PostRepo.find_duplicates_by_phone` (`Post.phones.overlap`). -/
def find_duplicates_by_phone (posts : List DPost) (phones : List String)
    (excludeId : Option Nat) : List DPost :=
  if phones.isEmpty then []
  else
    sortByPub (posts.filter (fun q =>
      q.phones.any (fun p => phones.contains p) && !q.is_deleted &&
      excludeFilter excludeId q))

/-- Write `duplicate_of` on the post row with the given id. -/
def set_dup_of (posts : List DPost) (pid orig : Nat) : List DPost :=
  posts.map (fun q => if q.id = pid then { q with duplicate_of := some orig } else q)

/-- One iteration of the hash-duplicate loop: append the
`text_exact`/`1.0` link (earlier-published row as `original`) and write
the later row's `duplicate_of` pointer — also on the in-flight `post`
object when `post` is the later one. -/
def hash_iter (acc : DB × DPost) (dup : DPost) : DB × DPost :=
  let db := acc.1
  let p := acc.2
  let dupIsOriginal := dup.published_at < p.published_at
  let original_id := if dupIsOriginal then dup.id else p.id
  let duplicate_id := if dupIsOriginal then p.id else dup.id
  let db := { db with
    dups := db.dups ++ [⟨original_id, duplicate_id, 1, "text_exact"⟩],
    posts := set_dup_of db.posts duplicate_id original_id }
  let p := if p.id = duplicate_id then { p with duplicate_of := some original_id }
           else p
  (db, p)

/-- Step 1 of `PostService._check_duplicates`: exact text-hash
duplicates against the non-deleted stored posts. -/
def hash_step (db : DB) (p : DPost) : DB × DPost :=
  match p.text_hash with
  | none => (db, p)
  | some h =>
    if h = "" then (db, p)   -- `if post.text_hash:` — empty string is falsy
    else
      (find_duplicates_by_hash db.posts h (some p.id)).foldl hash_iter (db, p)

/-- One iteration of the phone-duplicate loop: skipped while
`post.duplicate_of` is truthy (`if post.duplicate_of: continue`); no
`duplicate_of` pointer is written in this step. -/
def phone_iter (acc : DB × DPost) (m : DPost) : DB × DPost :=
  let db := acc.1
  let p := acc.2
  if truthyNat p.duplicate_of then (db, p)
  else
    let mIsOriginal := m.published_at < p.published_at
    ({ db with
       dups := db.dups ++
         [⟨if mIsOriginal then m.id else p.id,
           if mIsOriginal then p.id else m.id, 7/10, "phone"⟩] }, p)

/-- Step 2 of `PostService._check_duplicates`: phone-overlap
duplicates. -/
def phone_step (db : DB) (p : DPost) : DB × DPost :=
  if p.phones.isEmpty then (db, p)   -- `if post.phones:`
  else
    (find_duplicates_by_phone db.posts p.phones (some p.id)).foldl phone_iter (db, p)

/-- `PostService._check_duplicates`. -/
def check_duplicates (db : DB) (p : DPost) : DB × DPost :=
  phone_step (hash_step db p).1 (hash_step db p).2

/-- The post data handed over by the listener (the fields `save_post`
reads on the paths modelled here). -/
structure PostData where
  post_uid : String
  published_at : Nat
  text : String
  phones : List String
  parsed_is_real_estate : Bool
  deriving Repr, DecidableEq

/-- `PostRepo.compute_text_hash` around an abstract digest:
`digest(" ".join(text.lower().split()))`. -/
def compute_text_hash (digest : String → String) (t : String) : String :=
  digest (joinSpace (pySplitWs (pyLower t)))

/-- `PostService.save_post`: the idempotency gate (`exists` on
`post_uid`, executed before any write) followed by post creation,
listing attach and duplicate resolution. -/
def save_post (digest : String → String) (db : DB) (pd : PostData) :
    Option Nat × DB :=
  if db.posts.any (fun q => q.post_uid == pd.post_uid) then (none, db)
  else
    let post : DPost :=
      { id := db.next_id
        post_uid := pd.post_uid
        published_at := pd.published_at
        text_hash := if pd.text ≠ "" then some (compute_text_hash digest pd.text)
                     else none
        phones := pd.phones
        duplicate_of := none
        is_deleted := false }
    let db := { db with posts := db.posts ++ [post], next_id := db.next_id + 1 }
    let db := if pd.parsed_is_real_estate then { db with listings := db.listings ++ [post.id] }
              else db
    let (db, post) := check_duplicates db post
    (some post.id, db)

/-! ## Theorems -/

/-- C5: For every input text, the triple-shorthand extractor returns all
three of rooms, floor, total_floors exactly when the matched triple
satisfies rooms ∈ 1–10, floor and total_floors ∈ 1–50 and
floor ≤ total_floors; a matched triple violating any bound yields all
three fields absent, and no match yields all three absent. -/
theorem triple_shorthand_all_or_nothing :
    (∀ t a b c, tripleMatch t = some (a, b, c) →
       parse_triple_format t =
         if 0 < a ∧ a ≤ 10 ∧ 0 < b ∧ b ≤ 50 ∧ 0 < c ∧ c ≤ 50 ∧ b ≤ c
         then (some a, some b, some c) else (none, none, none)) ∧
    (∀ t, tripleMatch t = none → parse_triple_format t = (none, none, none)) := by
  constructor
  · intro t a b c h
    simp [parse_triple_format, h]
  · intro t h
    simp [parse_triple_format, h]

theorem triple_shorthand_all_or_nothing_witness :
    tripleMatch "2/5/9" = some (2, 5, 9) ∧
    parse_triple_format "2/5/9" = (some 2, some 5, some 9) ∧
    tripleMatch "3/9/5" = some (3, 9, 5) ∧
    parse_triple_format "3/9/5" = (none, none, none) := by
  refine ⟨by decide, ?_, by decide, ?_⟩
  · have h := triple_shorthand_all_or_nothing.1 "2/5/9" 2 5 9 (by decide)
    rw [h]; decide
  · have h := triple_shorthand_all_or_nothing.1 "3/9/5" 3 9 5 (by decide)
    rw [h]; decide

/-- Every result of the price-pattern loop is either total absence or an
accepted price inside its currency's plausibility band. -/
theorem price_loop_cases (t : String) (ps : List Re) :
    price_loop t ps = (none, none) ∨
    (∃ p, price_loop t ps = (some p, some "usd") ∧ 50 ≤ p ∧ p ≤ 10000) ∨
    (∃ p, price_loop t ps = (some p, some "uzs") ∧ 100000 ≤ p) := by
  induction ps with
  | nil => left; rfl
  | cons q rest ih =>
    rw [price_loop]
    split
    · exact ih
    · split
      · exact ih
      · split
        · exact ih
        · split
          · next hcond => exact .inr (.inl ⟨_, rfl, hcond.2.1, hcond.2.2⟩)
          · split
            · next hcond => exact .inr (.inr ⟨_, rfl, hcond.2⟩)
            · exact ih

/-- C6: whenever the price extractor returns a price it is strictly
positive, and when the returned currency is `usd` the price lies in the
engine's plausibility band `[50, 10000]`. -/
theorem price_positive_and_usd_band (t : String) (p : Nat)
    (h : (parse_price t).1 = some p) :
    0 < p ∧ ((parse_price t).2 = some "usd" → 50 ≤ p ∧ p ≤ 10000) := by
  rcases price_loop_cases t PRICE_PATTERNS with hc | ⟨v, hc, h1, h2⟩ | ⟨v, hc, h1⟩ <;>
    rw [parse_price] at h ⊢ <;> rw [hc] at h ⊢
  · simp at h
  · simp only [Option.some.injEq] at h
    subst h
    exact ⟨by omega, fun _ => ⟨h1, h2⟩⟩
  · simp only [Option.some.injEq] at h
    subst h
    refine ⟨by omega, fun hu => ?_⟩
    simp at hu

theorem price_positive_and_usd_band_witness :
    (parse_price "narx 600 $").1 = some 600 ∧ 0 < 600 ∧
    ((parse_price "narx 600 $").2 = some "usd" → 50 ≤ 600 ∧ 600 ≤ 10000) := by
  refine ⟨by decide, ?_⟩
  exact price_positive_and_usd_band "narx 600 $" 600 (by decide)

/-- C7: a returned price of magnitude at least 50 000 always carries
the local low-denomination currency `uzs` and never `usd`, explicit
unit token or not. -/
theorem price_magnitude_implies_uzs (t : String) (p : Nat)
    (h : (parse_price t).1 = some p) (hm : 50000 ≤ p) :
    (parse_price t).2 = some "uzs" ∧ (parse_price t).2 ≠ some "usd" := by
  rcases price_loop_cases t PRICE_PATTERNS with hc | ⟨v, hc, h1, h2⟩ | ⟨v, hc, h1⟩ <;>
    rw [parse_price] at h ⊢ <;> rw [hc] at h ⊢
  · simp at h
  · simp only [Option.some.injEq] at h
    omega
  · simp only [Option.some.injEq] at h
    exact ⟨rfl, by simp⟩

theorem price_magnitude_implies_uzs_witness :
    (parse_price "narx: 200000").1 = some 200000 ∧ 50000 ≤ 200000 ∧
    (parse_price "narx: 200000").2 = some "uzs" ∧
    (parse_price "narx: 200000").2 ≠ some "usd" := by
  refine ⟨by decide, by decide, ?_⟩
  exact price_magnitude_implies_uzs "narx: 200000" 200000 (by decide) (by decide)

/-- C8: an explicit no-deposit phrase short-circuits to
`(deposit = None, no_deposit = true)`; when no such phrase is present,
the deposit word appears, and no in-bounds amount is extractable, the
result is `(deposit = None, no_deposit = false)`. -/
theorem deposit_short_circuit_and_bare_word :
    (∀ t, (rsearch true NO_DEPOSIT_PATTERN t).isSome = true →
       parse_deposit t = (none, true)) ∧
    (∀ t, (rsearch true NO_DEPOSIT_PATTERN t).isSome = false →
       (rsearch true DEPOSIT_WORD t).isSome = true →
       depositAmount t = none →
       parse_deposit t = (none, false)) := by
  constructor
  · intro t h
    simp [parse_deposit, h]
  · intro t h1 h2 h3
    simp [parse_deposit, h1, h2, h3]

theorem deposit_short_circuit_and_bare_word_witness :
    ((rsearch true NO_DEPOSIT_PATTERN "без депозита").isSome = true ∧
      parse_deposit "без депозита" = (none, true)) ∧
    ((rsearch true NO_DEPOSIT_PATTERN "депозит").isSome = false ∧
      (rsearch true DEPOSIT_WORD "депозит").isSome = true ∧
      depositAmount "депозит" = none ∧
      parse_deposit "депозит" = (none, false)) := by
  refine ⟨⟨by decide, ?_⟩, by decide, by decide, by decide, ?_⟩
  · exact deposit_short_circuit_and_bare_word.1 "без депозита" (by decide)
  · exact deposit_short_circuit_and_bare_word.2 "депозит" (by decide) (by decide)
      (by decide)

/-- C9: the extraction layer is NOT total — `parse_condition` evaluates
`match.lastindex >= 1` on a match of its third pattern
(`evro\s*ta\'?mir`), which has no capture group, so `lastindex` is
`None` and CPython raises `TypeError`; the exception propagates out of
`parse_listing`.  The text below matches only that groupless pattern
and passes the `is_real_estate` gate, exhibiting the crash. -/
theorem parse_condition_raises_type_error :
    parse_condition "evro tamir" =
      Except.error "TypeError: NoneType >= int in parse_condition" ∧
    parse_listing "kvartira evro tamir" none =
      Except.error "TypeError: NoneType >= int in parse_condition" := ⟨rfl, rfl⟩

/-- The `is_real_estate` flag of the real-estate branch is `true` by
construction. -/
theorem build_listing_is_real_estate (t : String) (g : List String)
    (c h : Option String) : (build_listing t g c h).is_real_estate = true := rfl

theorem build_listing_deal_type (t : String) (g : List String)
    (c h : Option String) :
    (build_listing t g c h).deal_type = some (detect_deal_type t g) := rfl

theorem build_listing_price_period (t : String) (g : List String)
    (c h : Option String) :
    (build_listing t g c h).price_period =
      some (if detect_deal_type t g = "rent_daily" then "day" else "month") := rfl

/-- C4: the relevance classifier is a hard gate — whenever the result
of `parse_listing` carries `is_real_estate = false`, the result is
exactly the singleton `{is_real_estate: false}` record: every other
field is absent. -/
theorem gate_false_all_fields_absent (t : String) (h : Option (List String))
    (r : Listing) (hok : parse_listing t h = .ok r)
    (hflag : r.is_real_estate = false) : r = notRealEstate := by
  rw [parse_listing] at hok
  split at hok
  · injection hok with h'; exact h'.symm
  · split at hok
    · injection hok with h'; exact h'.symm
    · split at hok
      · exact absurd hok (by simp)
      · split at hok
        · exact absurd hok (by simp)
        · injection hok with h'
          rw [← h', build_listing_is_real_estate] at hflag
          exact absurd hflag (by simp)

theorem gate_false_all_fields_absent_witness :
    parse_listing "Привет, как дела?" none = .ok notRealEstate ∧
    notRealEstate.is_real_estate = false ∧
    notRealEstate = notRealEstate := by
  refine ⟨rfl, rfl, ?_⟩
  exact gate_false_all_fields_absent "Привет, как дела?" none notRealEstate rfl rfl

/-- C10: for every text classified as real estate, `price_period` is
`"day"` exactly when `deal_type` is `"rent_daily"`, and `"month"`
otherwise; the data model's `"total"` value is never produced. -/
theorem price_period_day_iff_rent_daily (t : String) (h : Option (List String))
    (r : Listing) (hok : parse_listing t h = .ok r)
    (hflag : r.is_real_estate = true) :
    (r.price_period = some "day" ↔ r.deal_type = some "rent_daily") ∧
    (r.deal_type ≠ some "rent_daily" → r.price_period = some "month") ∧
    r.price_period ≠ some "total" := by
  rw [parse_listing] at hok
  split at hok
  · injection hok with h'
    rw [← h'] at hflag
    exact absurd hflag (by simp [notRealEstate])
  · split at hok
    · injection hok with h'
      rw [← h'] at hflag
      exact absurd hflag (by simp [notRealEstate])
    · split at hok
      · exact absurd hok (by simp)
      · split at hok
        · exact absurd hok (by simp)
        · injection hok with h'
          rw [← h', build_listing_deal_type, build_listing_price_period]
          by_cases hd : detect_deal_type (pyStrip t)
              (resolve_hashtags (pyStrip t) h) = "rent_daily"
          · rw [if_pos hd, hd]
            refine ⟨by simp, by simp, by simp⟩
          · rw [if_neg hd]
            refine ⟨?_, fun _ => rfl, by simp⟩
            constructor
            · intro hday; exact absurd (Option.some.inj hday) (by simp)
            · intro hdt; exact absurd (Option.some.inj hdt) hd

/-- The concrete listing record produced for the witness text
`"kvartira"`. -/
def kvartiraListing : Listing := build_listing "kvartira" [] none none

theorem price_period_day_iff_rent_daily_witness :
    parse_listing "kvartira" none = .ok kvartiraListing ∧
    kvartiraListing.is_real_estate = true ∧
    ((kvartiraListing.price_period = some "day" ↔
        kvartiraListing.deal_type = some "rent_daily") ∧
     (kvartiraListing.deal_type ≠ some "rent_daily" →
        kvartiraListing.price_period = some "month") ∧
     kvartiraListing.price_period ≠ some "total") := by
  refine ⟨rfl, rfl, ?_⟩
  exact price_period_day_iff_rent_daily "kvartira" none kvartiraListing rfl rfl

/-! ### Duplicate-resolution lemmas -/

/-- While the in-flight post is marked duplicate-of something, every
phone-loop iteration is a no-op. -/
theorem phone_iter_fold_marked (cands : List DPost) :
    ∀ (db : DB) (p : DPost), truthyNat p.duplicate_of = true →
      cands.foldl phone_iter (db, p) = (db, p) := by
  induction cands with
  | nil => intro db p _; rfl
  | cons m rest ih =>
    intro db p h
    rw [List.foldl_cons]
    have he : phone_iter (db, p) m = (db, p) := by simp [phone_iter, h]
    rw [he]
    exact ih db p h

theorem phone_step_marked (db : DB) (p : DPost)
    (h : truthyNat p.duplicate_of = true) : phone_step db p = (db, p) := by
  rw [phone_step]
  split
  · rfl
  · exact phone_iter_fold_marked _ db p h

/-- The phone loop only ever appends `match_type = "phone"` links and
leaves the in-flight post unchanged. -/
theorem phone_iter_fold_dups (cands : List DPost) :
    ∀ (db : DB) (p : DPost), ∃ extra,
      (cands.foldl phone_iter (db, p)).1.dups = db.dups ++ extra ∧
      ∀ l ∈ extra, l.match_type = "phone" := by
  induction cands with
  | nil => intro db p; exact ⟨[], by simp, by simp⟩
  | cons m rest ih =>
    intro db p
    rw [List.foldl_cons]
    by_cases h : truthyNat p.duplicate_of = true
    · have he : phone_iter (db, p) m = (db, p) := by simp [phone_iter, h]
      rw [he]
      exact ih db p
    · have hb : truthyNat p.duplicate_of = false := by
        revert h; cases truthyNat p.duplicate_of <;> simp
      have he : phone_iter (db, p) m =
          ({ db with dups := db.dups ++
              [⟨if m.published_at < p.published_at then m.id else p.id,
                if m.published_at < p.published_at then p.id else m.id,
                7/10, "phone"⟩] }, p) := by
        simp [phone_iter, hb]
      rw [he]
      obtain ⟨extra, h1, h2⟩ := ih _ p
      refine ⟨⟨if m.published_at < p.published_at then m.id else p.id,
               if m.published_at < p.published_at then p.id else m.id,
               7/10, "phone"⟩ :: extra, ?_, ?_⟩
      · rw [h1]; simp
      · intro l hl
        rcases List.mem_cons.mp hl with hl1 | hl1
        · subst hl1; rfl
        · exact h2 l hl1

theorem phone_step_dups (db : DB) (p : DPost) :
    ∃ extra, (phone_step db p).1.dups = db.dups ++ extra ∧
      ∀ l ∈ extra, l.match_type = "phone" := by
  rw [phone_step]
  split
  · exact ⟨[], by simp, by simp⟩
  · exact phone_iter_fold_dups _ db p

/-- C1: for a stored, non-deleted post and a newly ingested post that
share a text hash and have distinct author timestamps, the `text_exact`
link created by the resolver points from the earlier-timestamped post
(`original_id`) to the later one (`duplicate_id`) — whichever of the
two was ingested first. -/
theorem duplicate_canonicalization (q p : DPost) (ls : List Nat) (n : Nat)
    (h : String) (hq : q.text_hash = some h) (hp : p.text_hash = some h)
    (hne : h ≠ "") (hqd : q.is_deleted = false) (hid : q.id ≠ p.id)
    (hp0 : p.id ≠ 0) (hts : p.published_at ≠ q.published_at) :
    (∃ l ∈ (check_duplicates ⟨[q, p], [], ls, n⟩ p).1.dups,
        l.match_type = "text_exact") ∧
    (∀ l ∈ (check_duplicates ⟨[q, p], [], ls, n⟩ p).1.dups,
        l.match_type = "text_exact" →
        l.original_id = (if p.published_at < q.published_at then p.id else q.id) ∧
        l.duplicate_id = (if p.published_at < q.published_at then q.id else p.id)) := by
  have hfind : find_duplicates_by_hash [q, p] h (some p.id) = [q] := by
    simp [find_duplicates_by_hash, excludeFilter, hq, hqd, hid, hp0,
          sortByPub, insertByPub]
  have hstep : (hash_step ⟨[q, p], [], ls, n⟩ p).1.dups =
      [⟨if q.published_at < p.published_at then q.id else p.id,
        if q.published_at < p.published_at then p.id else q.id,
        1, "text_exact"⟩] := by
    simp only [hash_step, hp]
    rw [if_neg hne, hfind]
    simp [hash_iter]
  obtain ⟨extra, hext, hphone⟩ :=
    phone_step_dups (hash_step ⟨[q, p], [], ls, n⟩ p).1
      (hash_step ⟨[q, p], [], ls, n⟩ p).2
  have hall : (check_duplicates ⟨[q, p], [], ls, n⟩ p).1.dups =
      ⟨if q.published_at < p.published_at then q.id else p.id,
       if q.published_at < p.published_at then p.id else q.id,
       1, "text_exact"⟩ :: extra := by
    rw [check_duplicates, hext, hstep]
    simp
  constructor
  · exact ⟨_, by rw [hall]; exact List.mem_cons_self _ _, rfl⟩
  · intro l hl ht
    rw [hall] at hl
    rcases List.mem_cons.mp hl with hl1 | hl1
    · subst hl1
      rcases (by omega :
          q.published_at < p.published_at ∨ p.published_at < q.published_at) with
        hlt | hlt
      · simp [if_pos hlt,
          if_neg (show ¬p.published_at < q.published_at by omega)]
      · simp [if_pos hlt,
          if_neg (show ¬q.published_at < p.published_at by omega)]
    · rw [hphone l hl1] at ht
      exact absurd ht (by simp)

theorem duplicate_canonicalization_witness :
    (∃ l ∈ (check_duplicates
        ⟨[⟨1, "a", 10, some "H", [], none, false⟩,
          ⟨2, "b", 20, some "H", [], none, false⟩], [], [], 3⟩
        ⟨2, "b", 20, some "H", [], none, false⟩).1.dups,
      l.match_type = "text_exact") ∧
    (∀ l ∈ (check_duplicates
        ⟨[⟨1, "a", 10, some "H", [], none, false⟩,
          ⟨2, "b", 20, some "H", [], none, false⟩], [], [], 3⟩
        ⟨2, "b", 20, some "H", [], none, false⟩).1.dups,
      l.match_type = "text_exact" →
      l.original_id = 1 ∧ l.duplicate_id = 2) := by
  have h := duplicate_canonicalization
    ⟨1, "a", 10, some "H", [], none, false⟩
    ⟨2, "b", 20, some "H", [], none, false⟩ [] 3 "H"
    rfl rfl (by decide) rfl (by decide) (by decide) (by decide)
  refine ⟨h.1, fun l hl ht => ?_⟩
  have := h.2 l hl ht
  simpa using this

/-- C2: ingestion is idempotent in the external unique key — when a
post with the incoming `post_uid` already exists, `save_post` returns
`None` and leaves storage untouched (the existence check runs before
any write), so a unique stored post for that key stays unique. -/
theorem ingest_idempotent (digest : String → String) (db : DB) (pd : PostData)
    (hex : db.posts.any (fun q => q.post_uid == pd.post_uid) = true) :
    save_post digest db pd = (none, db) ∧
    ((db.posts.filter (fun q => q.post_uid == pd.post_uid)).length = 1 →
      ((save_post digest db pd).2.posts.filter
        (fun q => q.post_uid == pd.post_uid)).length = 1) := by
  have h : save_post digest db pd = (none, db) := by
    rw [save_post, if_pos hex]
  exact ⟨h, fun h1 => by rw [h]; exact h1⟩

theorem ingest_idempotent_witness :
    save_post id
      ⟨[⟨1, "chan1:42", 10, some "H", [], none, false⟩], [], [], 2⟩
      ⟨"chan1:42", 20, "text", [], true⟩ =
      (none, ⟨[⟨1, "chan1:42", 10, some "H", [], none, false⟩], [], [], 2⟩) ∧
    ((⟨[⟨1, "chan1:42", 10, some "H", [], none, false⟩], [], [], 2⟩ :
        DB).posts.filter (fun q => q.post_uid == "chan1:42")).length = 1 ∧
    (((save_post id
        ⟨[⟨1, "chan1:42", 10, some "H", [], none, false⟩], [], [], 2⟩
        ⟨"chan1:42", 20, "text", [], true⟩).2.posts.filter
          (fun q => q.post_uid == "chan1:42")).length = 1) := by
  have h := ingest_idempotent id
    ⟨[⟨1, "chan1:42", 10, some "H", [], none, false⟩], [], [], 2⟩
    ⟨"chan1:42", 20, "text", [], true⟩ (by decide)
  exact ⟨h.1, by decide, h.2 (by decide)⟩

/-- C3 counterexample: a newly ingested post with an earlier timestamp
than its stored exact-hash duplicate.  Step 1 creates a `text_exact`
link in which the new post (id 2) is the original, so its
`duplicate_of` stays unset, and step 2 then also creates a `phone` link
involving it — refuting the claim that an exact-hash link suppresses
phone links for that post. -/
theorem exact_link_does_not_suppress_phone_link :
    (∃ l ∈ (check_duplicates
        ⟨[⟨1, "q", 10, some "H", ["+998901234567"], none, false⟩,
          ⟨2, "p", 5, some "H", ["+998901234567"], none, false⟩], [], [], 3⟩
        ⟨2, "p", 5, some "H", ["+998901234567"], none, false⟩).1.dups,
      l.match_type = "text_exact" ∧ (l.original_id = 2 ∨ l.duplicate_id = 2)) ∧
    (∃ l ∈ (check_duplicates
        ⟨[⟨1, "q", 10, some "H", ["+998901234567"], none, false⟩,
          ⟨2, "p", 5, some "H", ["+998901234567"], none, false⟩], [], [], 3⟩
        ⟨2, "p", 5, some "H", ["+998901234567"], none, false⟩).1.dups,
      l.match_type = "phone" ∧ (l.original_id = 2 ∨ l.duplicate_id = 2)) := by
  decide

/-- C3 (amended): phone links are suppressed exactly by the
`post.duplicate_of` mark — whenever step 1 left the newly ingested post
marked duplicate-of something (which happens only when the post is the
*later* one of an exact-hash pair), step 2 creates no link at all. -/
theorem phone_links_suppressed_when_marked (db : DB) (p : DPost)
    (h : truthyNat (hash_step db p).2.duplicate_of = true) :
    (check_duplicates db p).1.dups = (hash_step db p).1.dups := by
  rw [check_duplicates, phone_step_marked _ _ h]

theorem phone_links_suppressed_when_marked_witness :
    truthyNat ((hash_step
      ⟨[⟨1, "q", 5, some "H", ["+998901234567"], none, false⟩,
        ⟨2, "p", 10, some "H", ["+998901234567"], none, false⟩], [], [], 3⟩
      ⟨2, "p", 10, some "H", ["+998901234567"], none, false⟩).2.duplicate_of) = true ∧
    (check_duplicates
      ⟨[⟨1, "q", 5, some "H", ["+998901234567"], none, false⟩,
        ⟨2, "p", 10, some "H", ["+998901234567"], none, false⟩], [], [], 3⟩
      ⟨2, "p", 10, some "H", ["+998901234567"], none, false⟩).1.dups =
    (hash_step
      ⟨[⟨1, "q", 5, some "H", ["+998901234567"], none, false⟩,
        ⟨2, "p", 10, some "H", ["+998901234567"], none, false⟩], [], [], 3⟩
      ⟨2, "p", 10, some "H", ["+998901234567"], none, false⟩).1.dups := by
  refine ⟨by decide, ?_⟩
  exact phone_links_suppressed_when_marked _ _ (by decide)

end RealEstate
